import Mathlib

/-!
Verification development for `DART_state_space.py` (DARTpy).

This file gives a shallow embedding of the core dispatch-and-reduction
pipeline of the module — the date-range reducer `DART_diagn_to_array`,
the spatial/ensemble reduction steps of the plotting routines, the
tropopause-relative vertical transform `to_TPbased`, the covariance
NetCDF export `make_state_to_obs_covariance_file`, and the failure
paths of `compute_DART_diagn_from_model_h_files`,
`plot_diagnostic_hovmoeller` and `plot_diagnostic_lev_lat` — and proves
or refutes the documented properties of these operations.

Conventions of the embedding:
* machine floats carrying possible NaN are modelled as `Option ℚ`
  (`none` = NaN, `some q` = an ordinary value);
* a Python function that can return `None` in place of data returns an
  `Option`;
* a Python runtime exception (TypeError, NameError) is modelled as
  `Except.error`;
* external collaborator loaders (DART/WACCM/ERA file readers, scipy
  interpolation) are parameters of the embedded functions, as the spec
  treats them as opaque services.
-/

/-- A `datetime.datetime` value restricted to the fields the embedded
code inspects: year, month, day, hour, minute. -/
structure PyDate where
  year : Nat
  month : Nat
  day : Nat
  hour : Nat
  minute : Nat
deriving DecidableEq, Repr

/-- The experiment dictionary (spec §3 "ExperimentSpec"): the fields of
the Python dict `E` that the embedded core pipeline reads or writes. -/
structure ExperimentSpec where
  exp_name : String
  «variable» : String
  diagn : String
  copystring : String
  daterange : List PyDate
  latrange : ℚ × ℚ
  lonrange : ℚ × ℚ
  levrange : ℚ × ℚ
  levtype : String
  extras : String
deriving DecidableEq, Repr

/-! ## Calendar arithmetic (for the covariance-export time stamp)

`make_state_to_obs_covariance_file` computes
`dt = date - datetime.datetime(1600,1,1,0,0,0); time0 = dt.days`
(lines 1149-1152).  CPython's `datetime` uses the proleptic Gregorian
calendar; `date.toordinal()` is
`_days_before_year(y) + _days_before_month(y, m) + d`, with
`_days_before_year(y) = (y-1)*365 + (y-1)//4 - (y-1)//100 + (y-1)//400`.
We reproduce that arithmetic here. -/

/-- Python `calendar.isleap` / `datetime._is_leap`. -/
def pyIsLeap (y : Nat) : Bool :=
  y % 4 = 0 && (y % 100 ≠ 0 || y % 400 = 0)

/-- Python `datetime._days_before_year`: days of the proleptic Gregorian
calendar strictly before January 1 of year `y`. -/
def days_before_year (y : Nat) : Int :=
  let yy : Int := (y : Int) - 1
  yy * 365 + yy / 4 - yy / 100 + yy / 400

/-- Python `datetime._days_in_month`. -/
def days_in_month (y m : Nat) : Nat :=
  if m = 2 then (if pyIsLeap y then 29 else 28)
  else if m = 4 ∨ m = 6 ∨ m = 9 ∨ m = 11 then 30
  else 31

/-- Python `datetime._days_before_month`: days in year `y` strictly before the
first of month `m`. -/
def days_before_month (y m : Nat) : Nat :=
  ((List.range m).filter (fun k => 1 ≤ k)).foldl (fun acc k => acc + days_in_month y k) 0

/-- Python `date.toordinal()`: proleptic Gregorian ordinal of the date, where
0001-01-01 has ordinal 1. -/
def pyToOrdinal (d : PyDate) : Int :=
  days_before_year d.year + (days_before_month d.year d.month : Int) + (d.day : Int)

/-- The `.days` component of `date2 - date1` for two datetimes at
midnight-or-later times of day: for `date1` at midnight it is the whole
number of days between the calendar dates. -/
def pyTimedeltaDays (date1 date2 : PyDate) : Int :=
  pyToOrdinal date2 - pyToOrdinal date1

/-- Lines 1149-1152 of `make_state_to_obs_covariance_file`: the value
stored into the NetCDF `time` variable for an export date,
`(date - datetime.datetime(1600,1,1,0,0,0)).days`. -/
def covExportTimeValue (date : PyDate) : Int :=
  pyTimedeltaDays ⟨1600, 1, 1, 0, 0⟩ date

/-- Line 1190: the units attribute written for the `time` variable. -/
def covExportTimeUnits : String := "Days since 1601-01-01"

/-- Whole days from an epoch date (at midnight) to `d`: the reference
reading of a "Days since <epoch>" time value. -/
def daysSinceEpoch (epoch d : PyDate) : Int :=
  pyToOrdinal d - pyToOrdinal epoch

/-! ## The covariance-export NetCDF file structure (lines 1155-1196)

We model the NetCDF4 `Dataset` as the list of dimensions (name, size)
and variables (name, dimension tuple) that `createDimension` /
`createVariable` build, in creation order. -/

structure NetCDFDim where
  name : String
  size : Nat
deriving DecidableEq, Repr

structure NetCDFVar where
  name : String
  dims : List String
deriving DecidableEq, Repr

structure NetCDFFile where
  dims : List NetCDFDim
  vars : List NetCDFVar
deriving DecidableEq, Repr

/-- Lines 1156-1170 of `make_state_to_obs_covariance_file`: the
dimensions and variables created in the output file, as a function of
the experiment's variable name and of the coordinate-vector lengths
`len(lat0)`, `len(lon0)`, `len(lev0)`. -/
def make_state_to_obs_covariance_file_structure (variableName : String)
    (nlat nlon nlev : Nat) : NetCDFFile :=
  let baseDims : List NetCDFDim := [⟨"lat", nlat⟩, ⟨"lon", nlon⟩, ⟨"time", 1⟩]
  let baseVars : List NetCDFVar := [⟨"lon", ["lon"]⟩, ⟨"lat", ["lat"]⟩, ⟨"time", ["time"]⟩]
  if variableName = "PS" then
    { dims := baseDims
      vars := baseVars ++
        [⟨"Covariance", ["lat", "lon", "time"]⟩,
         ⟨"Correlation", ["lat", "lon", "time"]⟩] }
  else
    { dims := baseDims ++ [⟨"lev", nlev⟩]
      vars := baseVars ++
        [⟨"lev", ["lev"]⟩,
         ⟨"Covariance", ["lat", "lon", "lev", "time"]⟩,
         ⟨"Correlation", ["lat", "lon", "lev", "time"]⟩] }

/-- Look up a created variable by name. -/
def NetCDFFile.varDims (f : NetCDFFile) (n : String) : Option (List String) :=
  (f.vars.find? (fun v => v.name = n)).map NetCDFVar.dims

/-- Look up a created dimension by name. -/
def NetCDFFile.dimSize (f : NetCDFFile) (n : String) : Option Nat :=
  (f.dims.find? (fun d => d.name = n)).map NetCDFDim.size

/-! ## The date-range reducer `DART_diagn_to_array` (lines 2260-2405)

The reducer iterates an iteration range `DR` derived from
`E['daterange']`, calls the variable-family router per date, appends the
result (possibly Python `None`) to `Vlist`, and — inside the loop body —
filters out `None`s, recomputes `bad`, `new_daterange` and `Vmatrix`,
and returns the all-`None` failure tuple as soon as the filtered list is
empty.  A per-date field is an arbitrary type `F`; the trailing time
axis of `Vmatrix` is modelled as a `List F` of per-date slices. -/

/-- Lines 2267-2277: the iteration range.  `waccm.history_file_lookup`
is an external collaborator, modelled by its result `hnum`.  When
`hnum = 0` (monthly h0 files) the daterange is collapsed to the set of
distinct month-start timestamps `datetime(year, month, 1, 12, 0)`;
CPython's `set` iteration order is unspecified, realised here by
`dedup` (first occurrences kept). -/
def iterDates (hnum : Option Nat) (daterange : List PyDate) : List PyDate :=
  match hnum with
  | none => daterange
  | some 0 => (daterange.map (fun dd => ⟨dd.year, dd.month, 1, 12, 0⟩ : PyDate → PyDate)
      |>.dedup)
  | some _ => daterange

/-- Line 2391: `bad = [i for i, j in enumerate(Vlist) if j is None]`,
with `k` the index `enumerate` starts from. -/
def badPositionsAux {F : Type} : Nat → List (Option F) → List Nat
  | _, [] => []
  | k, x :: xs => (if x.isNone then [k] else []) ++ badPositionsAux (k + 1) xs

def badPositions {F : Type} (Vlist : List (Option F)) : List Nat :=
  badPositionsAux 0 Vlist

/-- Line 2392:
`new_daterange = [i for j, i in enumerate(E['daterange']) if j not in bad]`.
Note it filters the original `E['daterange']`, not the iteration range. -/
def newDaterangeAux (bad : List Nat) : Nat → List PyDate → List PyDate
  | _, [] => []
  | j, d :: ds => (if j ∈ bad then [] else [d]) ++ newDaterangeAux bad (j + 1) ds

def newDaterange (daterange : List PyDate) (bad : List Nat) : List PyDate :=
  newDaterangeAux bad 0 daterange

/-- Line 2389 / 2394: `Vlist2 = [V for V in Vlist if V is not None]` and
the slices of `Vmatrix` along the new trailing axis, in order. -/
def vmatrixSlices {F : Type} (Vlist : List (Option F)) : List F :=
  Vlist.filterMap id

/-- The router branches taken inside the date loop (lines 2286-2376),
with the external loaders abstracted into a per-date function `load`:

* `fresh`: branches that rebind `V` on every date — covariance /
  correlation (2309-2315), DART control variables (2318-2328), TEM and
  dynamical-heating diagnostics (2331-2334), the Nsq-forcing routines
  (2338-2348), and the `US`/`VS` history branch on its first date.
* `localsGuard`: the branches guarded by `if 'V' not in locals()`
  (lines 2292-2297 for ERA, 2375-2376 for plain history variables):
  the loader runs only while the name `V` is still unbound, i.e. on the
  first date only; afterwards the stale binding of `V` is re-appended. -/
inductive RouterRoute (F : Type) where
  | fresh (load : PyDate → Option F)
  | localsGuard (load : PyDate → Option F)

/-- One evaluation of the router for a date.  `Vbound` is the current
binding of the Python local `V`: `none` when `V` is unbound, otherwise
`some v` with `v` the bound value (itself `none` for Python `None`). -/
def routeLoad {F : Type} : RouterRoute F → Option (Option F) → PyDate → Option F
  | .fresh load, _, d => load d
  | .localsGuard load, none, d => load d
  | .localsGuard _, some v, _ => v

/-- Lines 2282-2404, the date loop of `DART_diagn_to_array`.  The body
appends the routed field to `Vlist` and immediately re-filters: if no
non-`None` entry exists so far, it prints the "could not find any data"
message and returns the all-`None` failure tuple (modelled `none`).
After computing `Vmatrix` via the list comprehension at line 2394, the
comprehension variable `V` leaks (Python 2 scoping) and rebinds the
local `V` to the last element of `Vlist2`.  The `[]` case models the
fall-through to `return Vmatrix, ...` at line 2405, which raises a
`NameError` (no result, modelled `none`) if the loop never ran. -/
def diagnLoop {F : Type} (route : RouterRoute F) (daterange : List PyDate) :
    List PyDate → List (Option F) → Option (Option F) → Option (List F × List PyDate)
  | [], Vlist, _ =>
      if Vlist.isEmpty then none
      else some (vmatrixSlices Vlist, newDaterange daterange (badPositions Vlist))
  | d :: rest, Vlist, Vbound =>
      let V := routeLoad route Vbound d
      let Vlist' := Vlist ++ [V]
      if (vmatrixSlices Vlist').isEmpty then none
      else diagnLoop route daterange rest Vlist' ((vmatrixSlices Vlist').getLast?.map some)

/-- The function `DART_diagn_to_array` (lines 2217-2405), specialised past the
anomaly/climatology early return at line 2230: the returned pair models
`(Vmatrix, new_daterange)` with `Vmatrix` given by its trailing-axis
slices; `none` models the all-`None` failure return. -/
def DART_diagn_to_array {F : Type} (route : RouterRoute F) (hnum : Option Nat)
    (daterange : List PyDate) : Option (List F × List PyDate) :=
  diagnLoop route daterange (iterDates hnum daterange) [] none

/-! ## In-place mutation of the caller's experiment dictionary

Lines 2367-2372 of `DART_diagn_to_array` overwrite `E['variable']` on
the caller's dict — `E['variable'] = 'U'` (resp. `'V'`) when the
requested variable is `US` (resp. `VS`) — with no copy taken. -/

/-- The rewrite of `E['variable']` performed at lines 2367-2372. -/
def renameStaggeredInPlace (E : ExperimentSpec) : ExperimentSpec :=
  if E.«variable» = "US" then { E with «variable» := "U" }
  else if E.«variable» = "VS" then { E with «variable» := "V" }
  else E

/-- The state of the caller's dict after `DART_diagn_to_array` returns:
if the model-history fallback branch ran for at least one date
(`fallbackReached`, i.e. the variable was not found by the earlier
routes on the first iterated date), the `US`/`VS` rename has been
applied to the caller's object; otherwise the dict is untouched by this
function. -/
def specAfter_DART_diagn_to_array (E : ExperimentSpec) (fallbackReached : Bool) :
    ExperimentSpec :=
  if fallbackReached then renameStaggeredInPlace E else E

/-! ## NaN-aware time averaging (plot_diagnostic_globe lines 87-91)

After the reducer, the plotting routines average over the trailing time
axis with `np.nanmean(Vmatrix, axis=len(Vmatrix.shape)-1)` when more
than one date survived.  A grid cell holds `Option ℚ` (`none` = NaN); a
field is its flat list of cells; the matrix is the list of per-date
slices produced by the reducer. -/

/-- Model of `np.nanmean` over one cell's time series: the mean of the non-NaN
entries, or NaN when every entry is NaN. -/
def nanmeanCell (xs : List (Option ℚ)) : Option ℚ :=
  let vs := xs.filterMap id
  if vs.length = 0 then none else some (vs.sum / (vs.length : ℚ))

/-- Model of `np.nanmean(Vmatrix, axis=last)` on a matrix whose trailing-axis
slices are `slices`, each a field of `ncells` cells. -/
def nanmeanTrailing (slices : List (List (Option ℚ))) (ncells : Nat) :
    List (Option ℚ) :=
  (List.range ncells).map (fun c => nanmeanCell (slices.map (fun s => s.getD c none)))

/-- The plain elementwise two-field mean `(a + b) / 2`. -/
def plainMean2 (A B : List ℚ) : List ℚ :=
  List.zipWith (fun a b => (a + b) / 2) A B

/-! ## The tropopause-relative vertical transform `to_TPbased`
(lines 2744-2770)

The outer four loops sweep every (copy, lat, lon, time) column; this
embeds the per-column body (lines 2761-2770).  The scipy call
`f = interp1d(ZTcolumn, Vcolumn, kind='cubic')` is an external
collaborator, abstracted as the interpolant `f : ℚ → ℚ`; `ZTcolumn` is
the column's tropopause-relative heights.  The output cell at a grid
height is `Option ℚ` (`none` = the NaN the output array was initialised
with at line 2751). -/

/-- Line 2746: `zTPgrid = np.arange(6.0, 21.0, 1.0)` — the heights 6 km
to 20 km in 1 km steps (written out, as `np.arange` produces exactly
these fifteen values). -/
def zTPgrid : List ℚ :=
  [6, 7, 8, 9, 10, 11, 12, 13, 14, 15, 16, 17, 18, 19, 20]

/-- Python `min` over a nonempty list. -/
def pyMin (x : ℚ) (xs : List ℚ) : ℚ := xs.foldl min x

/-- Python `max` over a nonempty list. -/
def pyMax (x : ℚ) (xs : List ℚ) : ℚ := xs.foldl max x

/-- Lines 2765-2770 for one column: grid points selected by
`np.logical_and(zTPgrid > min(ZTcolumn), zTPgrid < max(ZTcolumn))`
receive the interpolant's value; all others keep their initial NaN. -/
def to_TPbased_column (f : ℚ → ℚ) (zt0 : ℚ) (ztRest : List ℚ) : List (Option ℚ) :=
  zTPgrid.map (fun z =>
    if pyMin zt0 ztRest < z ∧ z < pyMax zt0 ztRest then some (f z) else none)

/-! ## The malformed level-axis search in the bootstrap branch of
`plot_diagnostic_globe` (lines 144-150)

The branch locates the level axis with
`for dimlength, idim in zip(VV.shape, len(VV.shape))` — the second
argument of `zip` is an `int`, not an iterable, so CPython raises
`TypeError: zip argument #2 must support iteration` as soon as the
statement executes.  (The non-bootstrap branch at line 98 correctly
writes `zip(VV.shape, range(len(VV.shape)))`.) -/

/-- The two Python values `zip` is applied to here. -/
inductive PyZipArg where
  | intArg (n : Int)
  | tupleArg (xs : List Nat)
deriving DecidableEq, Repr

/-- Python 2 `zip` on two arguments: both must support iteration. -/
def pyZip : PyZipArg → PyZipArg → Except String (List (Nat × Nat))
  | .tupleArg xs, .tupleArg ys => .ok (xs.zip ys)
  | .intArg _, _ => .error "zip argument #1 must support iteration"
  | _, .intArg _ => .error "zip argument #2 must support iteration"

/-- Line 147: `zip(VV.shape, len(VV.shape))` as evaluated in the
ensemble-bootstrap level-dimension search, for an array of shape
`shape`. -/
def plot_diagnostic_globe_bootstrap_levdim_zip (shape : List Nat) :
    Except String (List (Nat × Nat)) :=
  pyZip (.tupleArg shape) (.intArg (shape.length : Int))

/-! ## The 2-D-variable guard of `plot_diagnostic_lev_lat`
(lines 1772-1778)

The guard precedes every load: for `PS` or `FLUT` it prints its message
and executes a bare `return`, whose value in Python is the single object
`None` — not a tuple. -/

/-- A Python return value, as far as the guard is concerned. -/
inductive PyRet where
  /-- the single object `None` (a bare `return`) -/
  | pyNone
  /-- a tuple of `None`s of the given arity -/
  | noneTuple (arity : Nat)
  /-- whatever the remainder of the routine returns -/
  | restOfPipeline
deriving DecidableEq, Repr

/-- The observable outcome of a call: the diagnostic lines printed, the
number of `DART_diagn_to_array` invocations made, and the value
returned. -/
structure LevLatRun where
  printed : List String
  loads : Nat
  ret : PyRet
deriving DecidableEq, Repr

/-- Lines 1772-1778 of `plot_diagnostic_lev_lat`: the 2-D guard, then
the unconditional `DART_diagn_to_array` call and the rest of the
routine (abstracted). -/
def plot_diagnostic_lev_lat_run (E : ExperimentSpec) : LevLatRun :=
  if E.«variable» = "PS" ∨ E.«variable» = "FLUT" then
    { printed := ["Attempting to plot a two dimensional variable (" ++ E.«variable» ++
        ") over level and latitude - need to pick a different variable!"]
      loads := 0
      ret := .pyNone }
  else
    { printed := [], loads := 1, ret := .restOfPipeline }

/-! ## Failure paths of the core logic that raise instead of returning
`None` tuples

1. `compute_DART_diagn_from_model_h_files` (lines 1687-1743): every
   branch delegates to the WACCM loader; when no branch produced data
   (`Xout is None` — either because the copystring matched no branch or
   because the loader found no file), line 1739 builds its message from
   the name `copystring`, which is never bound in this function (the
   local is `CS`), so CPython raises
   `NameError: name 'copystring' is not defined` before the
   `return None,None,None,None` at line 1741 is reached.

2. `plot_diagnostic_hovmoeller` (line 301): the difference-experiment
   load `Vmatrix,lat,lon,lev = DART_diagn_to_array(Ediff,...)` unpacks
   the callee's 5-tuple into 4 targets, raising
   `ValueError: too many values to unpack`. -/

/-- Substring search on character lists (Python `sub in s`). -/
def charsStartWith : List Char → List Char → Bool
  | _, [] => true
  | [], _ :: _ => false
  | a :: as, b :: bs => a = b && charsStartWith as bs

def charsContain : List Char → List Char → Bool
  | [], pat => pat.isEmpty
  | a :: as, pat => charsStartWith (a :: as) pat || charsContain as pat

/-- Python `sub in s` for strings. -/
def pyStrContains (s sub : String) : Bool :=
  charsContain s.toList sub.toList

/-- The possible values of the local `Xout` when line 1737 of
`compute_DART_diagn_from_model_h_files` is reached: Python `None`, a
field from one of the single-file delegations (lines 1699-1724), or
the stacked ensemble array built at line 1735. -/
inductive HFilesXout (F : Type) where
  | noneXout
  | single (X : F)
  | stacked (Xs : List F)
deriving DecidableEq, Repr

/-- Lines 1729-1735: the `'ensemble'` branch loops over the `N` ensemble
members, appending each loader result (possibly `None`) to `Xlist`, and
then runs `np.concatenate([X[np.newaxis,...] for X in Xlist], axis=0)`.
The comprehension subscripts each element, so a `None` member (missing
file) raises a `TypeError` inside the branch; an empty `Xlist` makes
`np.concatenate` raise a `ValueError`; otherwise the stacked array is
produced. -/
def stackEnsembleMembers {F : Type} (Xlist : List (Option F)) : Except String (List F) :=
  if Xlist.any Option.isNone then
    .error "TypeError: NoneType object is not subscriptable"
  else if Xlist.isEmpty then
    .error "ValueError: need at least one array to concatenate"
  else .ok (Xlist.filterMap id)

/-- Lines 1693-1735 of `compute_DART_diagn_from_model_h_files`: `Xout`
starts as `None`; the `'ensemble member'` / `'ensemble mean'` /
`'ensemble std'` branches each delegate once to the external WACCM
loader, abstracted as the value `load` (still `None` when the loader
finds no file); the `'ensemble'` branch instead loops over the members
(their loader results abstracted as `ensembleLoads`) and stacks them,
raising inside the branch on a missing member, so it can never leave
`Xout` as `None`. -/
def hFilesXout {F : Type} (CS : String) (load : Option F)
    (ensembleLoads : List (Option F)) : Except String (HFilesXout F) :=
  let toX : Option F → HFilesXout F := fun o =>
    match o with
    | some x => .single x
    | none => .noneXout
  let X0 : HFilesXout F := .noneXout
  let X1 := if pyStrContains CS "ensemble member" then toX load else X0
  let X2 := if CS = "ensemble mean" then toX load else X1
  let X3 := if CS = "ensemble std" then toX load else X2
  if CS = "ensemble" then (stackEnsembleMembers ensembleLoads).map .stacked
  else .ok X3

/-- The local names bound in `compute_DART_diagn_from_model_h_files`
when line 1738 is reached with `Xout is None`. -/
def hFilesLocalNames : List String :=
  ["E", "datetime_in", "hostname", "verbose", "CS", "Xout", "lat", "lon", "lev",
   "instance", "datestr", "N", "Xlist", "iens", "Xs"]

/-- Evaluating a bare name in a local namespace. -/
def pyEvalName (bound : List String) (n : String) : Except String Unit :=
  if n ∈ bound then .ok () else .error ("NameError: name " ++ n ++ " is not defined")

/-- Lines 1737-1743, the failure tail of
`compute_DART_diagn_from_model_h_files`: a `TypeError`/`ValueError`
raised inside the `'ensemble'` branch propagates; otherwise, with
`Xout` still `None`, the print statement evaluates the unbound name
`copystring` (the local is `CS`) and raises a `NameError`; only if that
evaluation succeeded would the function print and return the
`None,None,None,None` tuple. -/
def compute_DART_diagn_from_model_h_files {F : Type} (CS : String) (load : Option F)
    (ensembleLoads : List (Option F)) : Except String (HFilesXout F) :=
  match hFilesXout CS load ensembleLoads with
  | .error e => .error e
  | .ok .noneXout =>
      match pyEvalName hFilesLocalNames "copystring" with
      | .error e => .error e
      | .ok _ => .ok .noneXout
  | .ok X => .ok X

/-- Python tuple-unpacking assignment of `values` into `nTargets`
targets. -/
def pyUnpackAssign {α : Type} (nTargets : Nat) (values : List α) :
    Except String (List α) :=
  if values.length = nTargets then .ok values
  else if nTargets < values.length then .error "ValueError: too many values to unpack"
  else .error ("ValueError: need more than " ++ toString values.length ++ " values to unpack")

/-- Line 301 of `plot_diagnostic_hovmoeller`: the 5 results of
`DART_diagn_to_array(Ediff, ...)` assigned to the 4 targets
`Vmatrix,lat,lon,lev`. -/
def plot_diagnostic_hovmoeller_Ediff_unpack {α : Type} (Vmatrix lat lon lev nd : α) :
    Except String (List α) :=
  pyUnpackAssign 4 [Vmatrix, lat, lon, lev, nd]

/-! ## Reducer lemmas -/

theorem vmatrixSlices_append {F : Type} (xs ys : List (Option F)) :
    vmatrixSlices (xs ++ ys) = vmatrixSlices xs ++ vmatrixSlices ys := by
  simp [vmatrixSlices]

/-- Once a non-`None` entry is in `Vlist`, the fresh-route loop never
takes the in-loop failure return, and it yields the fully filtered
result. -/
theorem diagnLoop_fresh_of_nonempty {F : Type} (load : PyDate → Option F)
    (dr : List PyDate) (DR : List PyDate) :
    ∀ (Vlist : List (Option F)) (Vb : Option (Option F)),
      vmatrixSlices Vlist ≠ [] →
      diagnLoop (.fresh load) dr DR Vlist Vb =
        some (vmatrixSlices (Vlist ++ DR.map load),
          newDaterange dr (badPositions (Vlist ++ DR.map load))) := by
  induction DR with
  | nil =>
      intro Vlist Vb h
      have hne : ¬ Vlist.isEmpty := by
        cases Vlist with
        | nil => simp [vmatrixSlices] at h
        | cons a as => simp
      simp [diagnLoop, hne]
  | cons d rest ih =>
      intro Vlist Vb h
      have hne : vmatrixSlices (Vlist ++ [load d]) ≠ [] := by
        rw [vmatrixSlices_append]
        intro hcontra
        exact h (List.append_eq_nil.mp hcontra).1
      have hEmpty : (vmatrixSlices (Vlist ++ [load d])).isEmpty = false := by
        cases hv : vmatrixSlices (Vlist ++ [load d]) with
        | nil => exact absurd hv hne
        | cons a as => simp
      simp only [diagnLoop, routeLoad, hEmpty, Bool.false_eq_true, if_false]
      rw [ih _ _ hne]
      simp [List.append_assoc]

/-- If the first iterated date loads `None`, the reducer aborts inside
the loop on that very first iteration. -/
theorem DART_diagn_to_array_head_none {F : Type} (load : PyDate → Option F)
    (d : PyDate) (rest : List PyDate) (h : load d = none) :
    DART_diagn_to_array (.fresh load) none (d :: rest) = none := by
  simp [DART_diagn_to_array, iterDates, diagnLoop, routeLoad, vmatrixSlices, h]

/-- If the first iterated date loads data, the reducer never aborts and
returns the filtered stack together with the filtered date list. -/
theorem DART_diagn_to_array_head_some {F : Type} (load : PyDate → Option F)
    (d : PyDate) (rest : List PyDate) (v : F) (h : load d = some v) :
    DART_diagn_to_array (.fresh load) none (d :: rest) =
      some (vmatrixSlices ((d :: rest).map load),
        newDaterange (d :: rest) (badPositions ((d :: rest).map load))) := by
  have hne : vmatrixSlices [some v] ≠ [] := by
    simp [vmatrixSlices, List.filterMap_cons]
  have hE : (vmatrixSlices [some v]).isEmpty = false := by
    simp [vmatrixSlices, List.filterMap_cons]
  simp only [DART_diagn_to_array, iterDates, diagnLoop, routeLoad, List.nil_append]
  rw [h]
  simp only [hE, Bool.false_eq_true, if_false]
  rw [diagnLoop_fresh_of_nonempty load (d :: rest) rest [some v]
    ((vmatrixSlices [some v]).getLast?.map some) hne]
  simp [h]

/-- Every position recorded by `badPositionsAux k` is at least `k`. -/
theorem mem_badPositionsAux_le {F : Type} :
    ∀ (xs : List (Option F)) (k i : Nat), i ∈ badPositionsAux k xs → k ≤ i := by
  intro xs
  induction xs with
  | nil => intro k i h; simp [badPositionsAux] at h
  | cons x tl ih =>
      intro k i h
      cases hx : x.isNone <;> simp [badPositionsAux, hx] at h
      · exact Nat.le_of_succ_le (ih (k + 1) i h)
      · rcases h with h | h
        · omega
        · exact Nat.le_of_succ_le (ih (k + 1) i h)

/-- The function `newDaterangeAux` only looks at membership of indices `≥ j` in the
`bad` list. -/
theorem newDaterangeAux_congr :
    ∀ (tl : List PyDate) (bad badB : List Nat) (j : Nat),
      (∀ i, j ≤ i → (i ∈ bad ↔ i ∈ badB)) →
      newDaterangeAux bad j tl = newDaterangeAux badB j tl := by
  intro tl
  induction tl with
  | nil => intros; rfl
  | cons d ds ih =>
      intro bad badB j hcong
      simp only [newDaterangeAux]
      have hj := hcong j le_rfl
      have hhead : (if j ∈ bad then ([] : List PyDate) else [d]) =
          if j ∈ badB then [] else [d] := by
        by_cases hb : j ∈ bad
        · rw [if_pos hb, if_pos (hj.mp hb)]
        · rw [if_neg hb, if_neg (fun hb2 => hb (hj.mpr hb2))]
      rw [hhead, ih bad badB (j + 1) (fun i hi => hcong i (Nat.le_of_succ_le hi))]

/-- Filtering `E['daterange']` by the positions at which the per-date
loads were `None` is the same as filtering it by date-wise success of
the load — provided the iterated list is the daterange itself. -/
theorem newDaterangeAux_badPositionsAux {F : Type} (load : PyDate → Option F) :
    ∀ (dr : List PyDate) (k : Nat),
      newDaterangeAux (badPositionsAux k (dr.map load)) k dr =
        dr.filter (fun d => (load d).isSome) := by
  intro dr
  induction dr with
  | nil => intro k; rfl
  | cons d tl ih =>
      intro k
      simp only [List.map_cons, badPositionsAux, newDaterangeAux, List.filter_cons]
      by_cases hld : load d = none
      · have hcong : ∀ i, k + 1 ≤ i →
            (i ∈ k :: badPositionsAux (k + 1) (tl.map load) ↔
              i ∈ badPositionsAux (k + 1) (tl.map load)) := by
          intro i hi
          simp only [List.mem_cons]
          constructor
          · rintro (rfl | h)
            · omega
            · exact h
          · intro h
            exact Or.inr h
        simp only [hld, Option.isNone_none, if_true, List.singleton_append,
          Option.isSome_none, Bool.false_eq_true, if_false]
        rw [if_pos (List.mem_cons_self _ _)]
        rw [newDaterangeAux_congr tl _ _ (k + 1) hcong]
        simpa using ih (k + 1)
      · have hnone : (load d).isNone = false := by
          cases hl2 : load d
          · exact absurd hl2 hld
          · rfl
        have hsome : (load d).isSome = true := by
          cases hl2 : load d
          · exact absurd hl2 hld
          · rfl
        have hknot : k ∉ badPositionsAux (k + 1) (tl.map load) := by
          intro hk
          have := mem_badPositionsAux_le (tl.map load) (k + 1) k hk
          omega
        simp only [hnone, Bool.false_eq_true, if_false, List.nil_append, hsome, if_true]
        rw [if_neg hknot, ih (k + 1)]
        simp

theorem newDaterange_badPositions_map {F : Type} (load : PyDate → Option F)
    (dr : List PyDate) :
    newDaterange dr (badPositions (dr.map load)) =
      dr.filter (fun d => (load d).isSome) :=
  newDaterangeAux_badPositionsAux load dr 0

theorem vmatrixSlices_map {F : Type} (load : PyDate → Option F) (dr : List PyDate) :
    vmatrixSlices (dr.map load) = dr.filterMap load := by
  simp [vmatrixSlices, List.filterMap_map, Function.comp]

/-- The filtered date list and the stacked slices line up: mapping the
per-date load over the surviving dates reproduces the slices. -/
theorem filter_isSome_map_load {F : Type} (load : PyDate → Option F)
    (dr : List PyDate) :
    (dr.filter (fun d => (load d).isSome)).map load = (dr.filterMap load).map some := by
  induction dr with
  | nil => rfl
  | cons d tl ih =>
      by_cases hld : load d = none
      · have hnone : (load d).isSome = false := by
          cases hl2 : load d
          · rfl
          · exact absurd hl2 (by simp [hld])
        simp only [List.filter_cons, hnone, Bool.false_eq_true, if_false,
          List.filterMap_cons, hld]
        exact ih
      · obtain ⟨v, hv⟩ := Option.ne_none_iff_exists'.mp hld
        simp only [List.filter_cons, hv, Option.isSome_some, if_true,
          List.filterMap_cons, List.map_cons, ih]

/-! ## Sample data used by concrete instances -/

def dateA : PyDate := ⟨2009, 1, 1, 0, 0⟩

def dateB : PyDate := ⟨2009, 1, 2, 0, 0⟩

def dateC : PyDate := ⟨2009, 1, 3, 0, 0⟩

/-- A representative experiment dictionary. -/
def dUS : ExperimentSpec :=
  { exp_name := "W0910_NODA", «variable» := "US", diagn := "prior",
    copystring := "ensemble mean", daterange := [dateA],
    latrange := (-90, 90), lonrange := (0, 360), levrange := (1000, 0),
    levtype := "hybrid", extras := "" }

/-- The per-date router result used in the first-date-missing instance:
no data for `dateA`, data for `dateB`. -/
def loadC2 : PyDate → Option Nat :=
  fun dd => if dd = dateB then some 5 else none

/-- Router results for the missing-middle-date mean instance. -/
def loadC6 : PyDate → Option (List (Option ℚ)) :=
  fun dd =>
    if dd = dateA then some [some 1, some 3]
    else if dd = dateC then some [some 5, some 7] else none

/-- Router results for the missing-last-date mean instance. -/
def loadC6b : PyDate → Option (List (Option ℚ)) :=
  fun dd =>
    if dd = dateA then some [some 1, some 3]
    else if dd = dateB then some [some 5, some 7] else none

/-- Router results with the first of three dates missing. -/
def loadC6x : PyDate → Option (List (Option ℚ)) :=
  fun dd =>
    if dd = dateB then some [some 2] else if dd = dateC then some [some 4] else none

/-! ## Remaining helper lemmas -/

/-- A pair drawn from the zip of a list with its image under `g` has
its second component determined by its first. -/
theorem mem_zip_self_map {α β : Type} (g : α → β) :
    ∀ (l : List α) (p : α × β), p ∈ l.zip (l.map g) → p.2 = g p.1 := by
  intro l
  induction l with
  | nil =>
      intro p hp
      simp at hp
  | cons a as ih =>
      intro p hp
      simp only [List.map_cons, List.zip_cons_cons, List.mem_cons] at hp
      rcases hp with rfl | hp
      · rfl
      · exact ih p hp

/-- NaN-aware time averaging of two NaN-free slices is the plain
elementwise mean. -/
theorem nanmeanTrailing_pair (A B : List ℚ) (hAB : A.length = B.length) :
    nanmeanTrailing [A.map some, B.map some] A.length = (plainMean2 A B).map some := by
  apply List.ext_getElem
  · simp [nanmeanTrailing, plainMean2, hAB]
  · intro i h1 h2
    have hiA : i < A.length := by
      simpa [nanmeanTrailing] using h1
    have hiB : i < B.length := by omega
    simp only [nanmeanTrailing, plainMean2, List.getElem_map, List.getElem_range,
      List.getElem_zipWith, List.map_cons, List.map_nil]
    have hA : (A.map some).getD i none = some (A[i]) := by
      rw [List.getD_eq_getElem?_getD, List.getElem?_map, List.getElem?_eq_getElem hiA]
      rfl
    have hB : (B.map some).getD i none = some (B[i]) := by
      rw [List.getD_eq_getElem?_getD, List.getElem?_map, List.getElem?_eq_getElem hiB]
      rfl
    rw [hA, hB]
    simp [nanmeanCell, List.filterMap_cons]

/-! ## Claim theorems -/

/-- C1 (counterexample): with a monthly-resolution variable
(`hnum = 0`) and two dates inside the same month, the iteration range
collapses to one month-start date, but `new_daterange` filters the
*original* two-date `E['daterange']`: the returned trailing axis has
length 1 while the returned date list has length 2, so
`Vmatrix.shape[-1] == len(new_daterange)` fails. -/
theorem C1_counterexample_monthly_collapse :
    DART_diagn_to_array (.fresh (fun _ => some (1 : Nat))) (some 0) [dateA, dateB] =
      some ([1], [dateA, dateB]) ∧
    ([1] : List Nat).length ≠ ([dateA, dateB] : List PyDate).length := by
  constructor
  · decide
  · decide

/-- C1 (amended): when no monthly collapse occurs (the iteration range
is `E['daterange']` itself) and the route reloads per date, a non-`None`
reducer result satisfies the date/array correspondence: the trailing
axis has the length of the filtered date list, and mapping the per-date
load over the filtered date list reproduces the slices — slice `i` is
the field loaded for `new_daterange[i]`. -/
theorem C1_reducer_date_correspondence {F : Type} (load : PyDate → Option F)
    (dr : List PyDate) (Vm : List F) (nd : List PyDate)
    (h : DART_diagn_to_array (.fresh load) none dr = some (Vm, nd)) :
    Vm.length = nd.length ∧ nd.map load = Vm.map some := by
  cases dr with
  | nil =>
      simp [DART_diagn_to_array, iterDates, diagnLoop] at h
  | cons d rest =>
      cases hld : load d with
      | none =>
          rw [DART_diagn_to_array_head_none load d rest hld] at h
          cases h
      | some v =>
          rw [DART_diagn_to_array_head_some load d rest v hld] at h
          have hp : (vmatrixSlices ((d :: rest).map load),
              newDaterange (d :: rest) (badPositions ((d :: rest).map load))) =
              (Vm, nd) := Option.some.inj h
          have hVm : vmatrixSlices ((d :: rest).map load) = Vm := congrArg Prod.fst hp
          have hnd : newDaterange (d :: rest) (badPositions ((d :: rest).map load)) = nd :=
            congrArg Prod.snd hp
          rw [← hVm, ← hnd, vmatrixSlices_map, newDaterange_badPositions_map]
          constructor
          · have hlen := congrArg List.length (filter_isSome_map_load load (d :: rest))
            simpa using hlen.symm
          · exact filter_isSome_map_load load (d :: rest)

theorem C1_reducer_date_correspondence_witness :
    ([7, 7] : List Nat).length = ([dateA, dateB] : List PyDate).length ∧
      [dateA, dateB].map (fun _ => some (7 : Nat)) = ([7, 7] : List Nat).map some :=
  C1_reducer_date_correspondence (fun _ => some 7) [dateA, dateB] [7, 7] [dateA, dateB]
    (by decide)

/-- C2 (counterexample): the `None` filtering and the "no data found"
all-`None` return happen inside the date loop, so when the first date
yields `None` the reducer aborts immediately and returns the failure
outputs even though the second date has data. -/
theorem C2_counterexample_first_date_missing :
    DART_diagn_to_array (.fresh loadC2) none [dateA, dateB] = none ∧
      loadC2 dateA = none ∧ loadC2 dateB = some 5 := by
  refine ⟨by decide, by decide, by decide⟩

/-- C2 (amended): the reducer re-filters `None`s inside the loop after
every date; with a per-date-reloading route it returns the all-`None`
failure outputs exactly when the *first* iterated date yields `None`
(aborting the loop there), and whenever the first date yields data it
returns a non-`None` array, dropping later `None` dates. -/
theorem C2_failure_iff_first_date_none {F : Type} (load : PyDate → Option F)
    (d : PyDate) (rest : List PyDate) :
    DART_diagn_to_array (.fresh load) none (d :: rest) = none ↔ load d = none := by
  cases hld : load d with
  | none => simp [DART_diagn_to_array_head_none load d rest hld]
  | some v =>
      rw [DART_diagn_to_array_head_some load d rest v hld]
      simp

/-- C3 (counterexample): running the reducer's model-history fallback
for a spec requesting `US` overwrites `E['variable']` to `'U'` on the
caller's own dictionary — the caller-supplied spec is not the same
after the call, and no private copy is involved (lines 2367-2372 assign
into `E` directly). -/
theorem C3_counterexample_US_rename :
    specAfter_DART_diagn_to_array dUS true ≠ dUS ∧
      (specAfter_DART_diagn_to_array dUS true).«variable» = "U" ∧
      dUS.«variable» = "US" := by
  refine ⟨by decide, by decide, by decide⟩

/-- C3 (amended): the reducer's in-place mutation touches only the
`variable` field of the caller's spec — every other field survives any
call unchanged, and `variable` is rewritten `US ↦ U`, `VS ↦ V` exactly
when the fallback branch ran. -/
theorem C3_only_variable_overwritten (E : ExperimentSpec) (fb : Bool) :
    (specAfter_DART_diagn_to_array E fb).exp_name = E.exp_name ∧
    (specAfter_DART_diagn_to_array E fb).diagn = E.diagn ∧
    (specAfter_DART_diagn_to_array E fb).copystring = E.copystring ∧
    (specAfter_DART_diagn_to_array E fb).daterange = E.daterange ∧
    (specAfter_DART_diagn_to_array E fb).latrange = E.latrange ∧
    (specAfter_DART_diagn_to_array E fb).lonrange = E.lonrange ∧
    (specAfter_DART_diagn_to_array E fb).levrange = E.levrange ∧
    (specAfter_DART_diagn_to_array E fb).levtype = E.levtype ∧
    (specAfter_DART_diagn_to_array E fb).extras = E.extras ∧
    (specAfter_DART_diagn_to_array E fb).«variable» =
      (if fb = true then
        (if E.«variable» = "US" then "U"
         else if E.«variable» = "VS" then "V" else E.«variable»)
       else E.«variable») := by
  cases fb with
  | false => simp [specAfter_DART_diagn_to_array, renameStaggeredInPlace]
  | true =>
      by_cases h1 : E.«variable» = "US"
      · simp [specAfter_DART_diagn_to_array, renameStaggeredInPlace, h1]
      · by_cases h2 : E.«variable» = "VS" <;>
          simp [specAfter_DART_diagn_to_array, renameStaggeredInPlace, h1, h2]

/-- C4: per column, `to_TPbased` leaves NaN at every grid height
outside the closed interval `[min(ZTcolumn), max(ZTcolumn)]` and places
the cubic interpolant's value (`f`, the abstracted
`interp1d(..., kind='cubic')` result) at every grid height strictly
inside it — no extrapolation ever occurs. -/
theorem C4_to_TPbased_column_NaN_and_interpolant (f : ℚ → ℚ) (zt0 : ℚ)
    (ztRest : List ℚ) (p : ℚ × Option ℚ)
    (hp : p ∈ zTPgrid.zip (to_TPbased_column f zt0 ztRest)) :
    ((p.1 < pyMin zt0 ztRest ∨ pyMax zt0 ztRest < p.1) → p.2 = none) ∧
    (pyMin zt0 ztRest < p.1 ∧ p.1 < pyMax zt0 ztRest → p.2 = some (f p.1)) := by
  have h2 : p.2 =
      (fun z => if pyMin zt0 ztRest < z ∧ z < pyMax zt0 ztRest
        then some (f z) else none) p.1 :=
    mem_zip_self_map
      (fun z => if pyMin zt0 ztRest < z ∧ z < pyMax zt0 ztRest then some (f z) else none)
      zTPgrid p (by simpa [to_TPbased_column] using hp)
  constructor
  · intro hout
    rw [h2]
    simp only
    rw [if_neg]
    rintro ⟨hl, hr⟩
    rcases hout with hout | hout
    · exact absurd hl (not_lt.mpr (le_of_lt hout))
    · exact absurd hr (not_lt.mpr (le_of_lt hout))
  · intro hin
    rw [h2]
    simp only
    rw [if_pos hin]

theorem C4_to_TPbased_column_NaN_and_interpolant_witness :
    ((9 : ℚ), some (9 : ℚ)) ∈ zTPgrid.zip (to_TPbased_column (fun z => z) 8 [12]) ∧
    (pyMin 8 [12] < (9 : ℚ) ∧ (9 : ℚ) < pyMax 8 [12] →
      (some (9 : ℚ) : Option ℚ) = some 9) :=
  ⟨by decide,
    (C4_to_TPbased_column_NaN_and_interpolant (fun z => z) 8 [12]
      ((9 : ℚ), some (9 : ℚ)) (by decide)).2⟩

/-- C5: on the failure paths of the core logic the code does *not*
print-and-return-`None` — it raises.  Whenever
`compute_DART_diagn_from_model_h_files` reaches its tail with no data
(unroutable copystring, or one of the single-file branches found no
file for the date), building the diagnostic message evaluates the
unbound name `copystring` and raises a `NameError`; the `'ensemble'`
branch with a missing member file raises a `TypeError` inside the
branch (line 1735), before the tail; and the difference-experiment
load in `plot_diagnostic_hovmoeller` always raises a `ValueError`
unpacking the reducer's 5-tuple into 4 targets. -/
theorem C5_core_failure_paths_raise {F : Type} (CS : String) (load : Option F)
    (ensembleLoads : List (Option F)) :
    (hFilesXout CS load ensembleLoads = .ok .noneXout →
      compute_DART_diagn_from_model_h_files CS load ensembleLoads =
        .error "NameError: name copystring is not defined") ∧
    (CS = "ensemble" → ensembleLoads.any Option.isNone = true →
      compute_DART_diagn_from_model_h_files CS load ensembleLoads =
        .error "TypeError: NoneType object is not subscriptable") ∧
    (∀ x1 x2 x3 x4 x5 : Option F,
      plot_diagnostic_hovmoeller_Ediff_unpack x1 x2 x3 x4 x5 =
        .error "ValueError: too many values to unpack") := by
  refine ⟨?_, ?_, ?_⟩
  · intro h
    unfold compute_DART_diagn_from_model_h_files
    rw [h]
    rfl
  · intro hCS hAny
    subst hCS
    unfold compute_DART_diagn_from_model_h_files hFilesXout stackEnsembleMembers
    rw [hAny]
    rfl
  · intro x1 x2 x3 x4 x5
    rfl

theorem C5_core_failure_paths_raise_witness :
    compute_DART_diagn_from_model_h_files "ensemble mean" (none : Option Nat) [] =
      .error "NameError: name copystring is not defined" ∧
    compute_DART_diagn_from_model_h_files "ensemble" (none : Option Nat)
        [none, some 3] =
      .error "TypeError: NoneType object is not subscriptable" :=
  ⟨(C5_core_failure_paths_raise "ensemble mean" none []).1 rfl,
    (C5_core_failure_paths_raise "ensemble" none [none, some 3]).2.1 rfl rfl⟩

/-- C6 (counterexample): with exactly one of three dates yielding
`None` from the router — the *first* one — and the other two yielding
NaN-free fields, the reducer aborts and returns the all-`None` failure
outputs, so no trailing-axis time mean is computed at all, let alone
the plain mean of the two present dates. -/
theorem C6_counterexample_first_date_missing_mean :
    DART_diagn_to_array (.fresh loadC6x) none [dateA, dateB, dateC] = none ∧
      loadC6x dateA = none ∧ loadC6x dateB = some [some 2] ∧
      loadC6x dateC = some [some 4] := by
  refine ⟨by decide, by decide, by decide, by decide⟩

/-- C6 (amended): when the single missing date of a 3-date range is not
the first one — whether it is the second or the third date — the
reducer drops it before stacking, and the NaN-aware time mean over the
trailing axis equals the plain elementwise mean of the two present
dates' fields — no NaN appears anywhere in the mean. -/
theorem C6_nanmean_time_mean_skips_missing_date
    (load : PyDate → Option (List (Option ℚ))) (d1 d2 d3 : PyDate)
    (A B : List ℚ)
    (h1 : load d1 = some (A.map some)) (hAB : A.length = B.length) :
    (load d2 = none → load d3 = some (B.map some) →
      DART_diagn_to_array (.fresh load) none [d1, d2, d3] =
        some ([A.map some, B.map some], [d1, d3])) ∧
    (load d2 = some (B.map some) → load d3 = none →
      DART_diagn_to_array (.fresh load) none [d1, d2, d3] =
        some ([A.map some, B.map some], [d1, d2])) ∧
    nanmeanTrailing [A.map some, B.map some] A.length = (plainMean2 A B).map some := by
  refine ⟨?_, ?_, nanmeanTrailing_pair A B hAB⟩
  · intro h2 h3
    rw [DART_diagn_to_array_head_some load d1 [d2, d3] (A.map some) h1]
    rw [newDaterange_badPositions_map, vmatrixSlices_map]
    simp [List.filterMap_cons, List.filter_cons, h1, h2, h3]
  · intro h2 h3
    rw [DART_diagn_to_array_head_some load d1 [d2, d3] (A.map some) h1]
    rw [newDaterange_badPositions_map, vmatrixSlices_map]
    simp [List.filterMap_cons, List.filter_cons, h1, h2, h3]

theorem C6_nanmean_time_mean_skips_missing_date_witness :
    DART_diagn_to_array (.fresh loadC6) none [dateA, dateB, dateC] =
      some ([[some 1, some 3], [some 5, some 7]], [dateA, dateC]) ∧
    DART_diagn_to_array (.fresh loadC6b) none [dateA, dateB, dateC] =
      some ([[some 1, some 3], [some 5, some 7]], [dateA, dateB]) ∧
    nanmeanTrailing [[some 1, some 3], [some 5, some 7]] 2 =
      (plainMean2 [1, 3] [5, 7]).map some :=
  ⟨(C6_nanmean_time_mean_skips_missing_date loadC6 dateA dateB dateC [1, 3] [5, 7]
      (by decide) (by decide)).1 (by decide) (by decide),
    (C6_nanmean_time_mean_skips_missing_date loadC6b dateA dateB dateC [1, 3] [5, 7]
      (by decide) (by decide)).2.1 (by decide) (by decide),
    (C6_nanmean_time_mean_skips_missing_date loadC6 dateA dateB dateC [1, 3] [5, 7]
      (by decide) (by decide)).2.2⟩

/-- C7: whenever the ensemble-bootstrap level-dimension search of
`plot_diagnostic_globe` is executed, the malformed expression
`zip(VV.shape, len(VV.shape))` passes an `int` as the second argument
of `zip` and raises a `TypeError` — it never produces an axis index,
for an array of any shape. -/
theorem C7_bootstrap_levdim_zip_raises (shape : List Nat) :
    plot_diagnostic_globe_bootstrap_levdim_zip shape =
      .error "zip argument #2 must support iteration" := rfl

/-- C8 (counterexample): the 2-D guard of `plot_diagnostic_lev_lat`
executes a bare `return`, whose value is the single object `None` — not
the pair `(None, None)` the claim states. -/
theorem C8_counterexample_bare_none_return :
    (plot_diagnostic_lev_lat_run { dUS with «variable» := "PS" }).ret = PyRet.pyNone ∧
      PyRet.pyNone ≠ PyRet.noneTuple 2 := by
  refine ⟨by decide, by decide⟩

/-- C8 (amended): requesting a level/latitude plot for a 2-D variable
(`PS` or `FLUT`) prints the diagnostic message and immediately returns
the single value `None` (a bare `return`), performing no data loading
or further computation. -/
theorem C8_lev_lat_2d_guard (E : ExperimentSpec)
    (h : E.«variable» = "PS" ∨ E.«variable» = "FLUT") :
    plot_diagnostic_lev_lat_run E =
      { printed := ["Attempting to plot a two dimensional variable (" ++ E.«variable» ++
          ") over level and latitude - need to pick a different variable!"]
        loads := 0
        ret := .pyNone } := by
  simp only [plot_diagnostic_lev_lat_run]
  rw [if_pos h]

theorem C8_lev_lat_2d_guard_witness :
    ({ dUS with «variable» := "PS" } : ExperimentSpec).«variable» = "PS" ∧
    plot_diagnostic_lev_lat_run { dUS with «variable» := "PS" } =
      { printed := ["Attempting to plot a two dimensional variable (" ++
          ({ dUS with «variable» := "PS" } : ExperimentSpec).«variable» ++
          ") over level and latitude - need to pick a different variable!"]
        loads := 0
        ret := .pyNone } :=
  ⟨rfl, C8_lev_lat_2d_guard { dUS with «variable» := "PS" } (Or.inl rfl)⟩

/-- C9: the covariance export's NetCDF structure — for the 2-D variable
`PS` the file has exactly the dimensions `lat`, `lon` and `time` (of
length 1), no `lev` dimension, and `Covariance`/`Correlation` variables
with dimensions `(lat, lon, time)`; for every other variable a `lev`
dimension is added and both variables have dimensions
`(lat, lon, lev, time)`. -/
theorem C9_covariance_file_dims (v : String) (nlat nlon nlev : Nat) :
    (v = "PS" →
      (make_state_to_obs_covariance_file_structure v nlat nlon nlev).dims =
        [⟨"lat", nlat⟩, ⟨"lon", nlon⟩, ⟨"time", 1⟩] ∧
      (make_state_to_obs_covariance_file_structure v nlat nlon nlev).varDims "Covariance" =
        some ["lat", "lon", "time"] ∧
      (make_state_to_obs_covariance_file_structure v nlat nlon nlev).varDims "Correlation" =
        some ["lat", "lon", "time"] ∧
      (make_state_to_obs_covariance_file_structure v nlat nlon nlev).dimSize "lev" = none) ∧
    (v ≠ "PS" →
      (make_state_to_obs_covariance_file_structure v nlat nlon nlev).dims =
        [⟨"lat", nlat⟩, ⟨"lon", nlon⟩, ⟨"time", 1⟩, ⟨"lev", nlev⟩] ∧
      (make_state_to_obs_covariance_file_structure v nlat nlon nlev).varDims "Covariance" =
        some ["lat", "lon", "lev", "time"] ∧
      (make_state_to_obs_covariance_file_structure v nlat nlon nlev).varDims "Correlation" =
        some ["lat", "lon", "lev", "time"] ∧
      (make_state_to_obs_covariance_file_structure v nlat nlon nlev).dimSize "time" =
        some 1) := by
  constructor
  · intro h
    subst h
    exact ⟨rfl, rfl, rfl, rfl⟩
  · intro h
    simp only [make_state_to_obs_covariance_file_structure, if_neg h]
    exact ⟨rfl, rfl, rfl, rfl⟩

theorem C9_covariance_file_dims_witness :
    ((make_state_to_obs_covariance_file_structure "PS" 96 144 66).dims =
        [⟨"lat", 96⟩, ⟨"lon", 144⟩, ⟨"time", 1⟩] ∧
      (make_state_to_obs_covariance_file_structure "PS" 96 144 66).varDims "Covariance" =
        some ["lat", "lon", "time"] ∧
      (make_state_to_obs_covariance_file_structure "PS" 96 144 66).varDims "Correlation" =
        some ["lat", "lon", "time"] ∧
      (make_state_to_obs_covariance_file_structure "PS" 96 144 66).dimSize "lev" = none) ∧
    ((make_state_to_obs_covariance_file_structure "T" 96 144 66).dims =
        [⟨"lat", 96⟩, ⟨"lon", 144⟩, ⟨"time", 1⟩, ⟨"lev", 66⟩] ∧
      (make_state_to_obs_covariance_file_structure "T" 96 144 66).varDims "Covariance" =
        some ["lat", "lon", "lev", "time"] ∧
      (make_state_to_obs_covariance_file_structure "T" 96 144 66).varDims "Correlation" =
        some ["lat", "lon", "lev", "time"] ∧
      (make_state_to_obs_covariance_file_structure "T" 96 144 66).dimSize "time" = some 1) :=
  ⟨(C9_covariance_file_dims "PS" 96 144 66).1 rfl,
    (C9_covariance_file_dims "T" 96 144 66).2 (by decide)⟩

/-- C10: for every export date, the value written into the NetCDF
`time` variable is the number of whole days since 1600-01-01 00:00,
while the units attribute declares `Days since 1601-01-01`; the stored
value exceeds the declared-epoch day count by 366 (the length of the
leap year 1600), i.e. it follows a 1600 epoch, not the declared 1601
epoch. -/
theorem C10_cov_time_epoch_mismatch (d : PyDate) :
    covExportTimeValue d = daysSinceEpoch ⟨1600, 1, 1, 0, 0⟩ d ∧
    covExportTimeUnits = "Days since 1601-01-01" ∧
    covExportTimeValue d = daysSinceEpoch ⟨1601, 1, 1, 0, 0⟩ d + 366 := by
  refine ⟨rfl, rfl, ?_⟩
  have h : pyToOrdinal ⟨1601, 1, 1, 0, 0⟩ - pyToOrdinal ⟨1600, 1, 1, 0, 0⟩ = 366 := by
    decide
  unfold covExportTimeValue pyTimedeltaDays daysSinceEpoch
  omega
